import Mathlib

/-!
Verification of the create-hana React project generator.

The development shallowly embeds the generator sources:
* `reactGenerator.generate` and its helpers (`generateCssFramework`,
  `generateCssPreprocessor`, the template functions) follow
  the React generator module line by line; JavaScript's in-place
  mutation of the shared `ProjectContext` is modelled by explicit
  state passing, and a thrown exception by a `GenResult.error`
  constructor that carries the state at the throw point (so "partial
  mutation before a throw" is expressible).
* `Record<string, string>` objects (`context.files`,
  `packageJson.devDependencies`) are association lists with
  JavaScript's key-overwrite semantics (`FileMap.set`).
* `renderTemplate` and `getFileExtension` follow the template
  utilities module.
* The `ViteConfigEditor` / `MainEditor` class is not part of the
  repository files available here, so `Editor` is modelled from the
  spec (two insertion-ordered, exact-string-deduplicated fragment
  lists per target).

Braces inside generated-code string literals are written with the
`\x7b` / `\x7d` escapes; the strings are byte-for-byte the source's
template literals.
-/

namespace CreateHana

/-- A JavaScript `Record<string, string>`: an association list whose
`set` overwrites an existing key in place and otherwise appends,
mirroring object property assignment (insertion order kept, keys
unique). -/
abbrev FileMap := List (String × String)

/-- Property assignment `obj[k] = v`. -/
def FileMap.set : FileMap → String → String → FileMap
  | [], k, v => [(k, v)]
  | (k', v') :: rest, k, v =>
    if k' = k then (k, v) :: rest else (k', v') :: FileMap.set rest k v

/-- Property read `obj[k]` (`none` for a missing key). -/
def FileMap.get : FileMap → String → Option String
  | [], _ => none
  | (k', v) :: rest, k => if k' = k then some v else FileMap.get rest k

/-- The fields of `Config` (src/src/types/core.ts) the React generator
reads.  Union-typed string fields are `Option String`: `none` is
JavaScript `undefined`. -/
structure Config where
  targetDir : Option String := none
  language : Option String := none
  projectType : Option String := none
  buildTool : Option String := none
  cssFramework : Option String := none
  cssPreprocessor : Option String := none
  routingLibrary : Option String := none
deriving DecidableEq

/-- The fields of `PackageJsonConfig` (src/src/types/core.ts) the React
generator writes. -/
structure PackageJsonConfig where
  name : String := ""
  version : String := ""
  description : Option String := none
  license : Option String := none
  engines : FileMap := []
  dependencies : Option FileMap := none
  devDependencies : Option FileMap := none
deriving DecidableEq

/-- Modelled from the spec (§3, §4.3): the repository's
`ViteConfigEditor` / `MainEditor` class sources are not among the
files available here, only their call sites and type declarations.
Per the spec an editor instance owns one target file and keeps two
ordered fragment sets: import statements and plugin/registration
expressions ("insertion order is preserved ... but exact duplicates
(identical string) are collapsed to one occurrence").  The target-key
string the call sites pass (`'viteConfig'` / `'main'`) names the
instance's single target and is implicit here, as §4.3 allows. -/
structure Editor where
  imports : List String := []
  plugins : List String := []
deriving DecidableEq

/-- Modelled from the spec (§4.3): `addImport(statement)` appends
`statement` to the ordered import set if not already present (exact
string match); no-op otherwise. -/
def Editor.addImport (e : Editor) (s : String) : Editor :=
  if s ∈ e.imports then e else { e with imports := e.imports ++ [s] }

/-- Modelled from the spec (§4.3): `addVitePlugin(expression)` appends
`expression` to the ordered plugin set under the same
duplicate-suppression rule. -/
def Editor.addVitePlugin (e : Editor) (s : String) : Editor :=
  if s ∈ e.plugins then e else { e with plugins := e.plugins ++ [s] }

/-- The fields of `ProjectContext` (src/src/types/core.ts) the React
generator touches.  The editors are optional, as in the source
(`viteConfigEditor?`, `mainEditor?`). -/
structure ProjectContext where
  config : Config
  packageJson : PackageJsonConfig := {}
  files : FileMap := []
  fileExtension : String
  viteConfigEditor : Option Editor := none
  mainEditor : Option Editor := none
deriving DecidableEq

/-- The errors the embedded generator can signal.  `validation`
models `ErrorFactory.validation(ErrorMessages.validation
.invalidProjectType(config.projectType))` — modelled from the spec
("a typed validation error carrying the offending value"), since the
error factory module is not among the files available here.
`missingEditor` models the runtime `TypeError` a non-null assertion
(`context.viteConfigEditor!`) produces when the editor is absent. -/
inductive GenError where
  | validation (offendingProjectType : Option String)
  | missingEditor
deriving DecidableEq

/-- The outcome of a generator call on a mutable context: like
JavaScript, an error still leaves the context with every mutation
made before the throw. -/
inductive GenResult where
  | ok (ctx : ProjectContext)
  | error (e : GenError) (ctx : ProjectContext)
deriving DecidableEq

/-- Sequencing of generator steps: an error aborts the rest of the
pass, keeping the state at the throw point. -/
def GenResult.next (r : GenResult) (f : ProjectContext → GenResult) : GenResult :=
  match r with
  | .ok ctx => f ctx
  | .error e ctx => .error e ctx

/-- JavaScript `a || b` for an optional string: `undefined` and the
empty string are falsy. -/
def jsOr (a : Option String) (b : String) : String :=
  match a with
  | some s => if s = "" then b else s
  | none => b

/-! ### Template functions (src/utils/template and the generator's local builders) -/

/-- `getFileExtension` from the template utilities. -/
def getFileExtension (language : String) : String :=
  if language = "typescript" then ".ts" else ".js"

/-- `generateViteEnvFile`. -/
def generateViteEnvFile : String :=
  "/// <reference types=\"vite/client\" />\n"

/-- `generateReadmeTemplate`. -/
def generateReadmeTemplate (projectType : String) (projectName : String)
    (description : Option String) : String :=
  "# " ++ projectName ++ "\n\n" ++ jsOr description ("A " ++ projectType ++ " project")
    ++ "\n\n## License\n\nMIT\n"

/-- `generateHtmlTemplate`. -/
def generateHtmlTemplate (title : String) (mainScriptPath : String) : String :=
  "<!doctype html>\n<html lang=\"en\">\n  <head>\n    <meta charset=\"UTF-8\" />\n    <link rel=\"icon\" type=\"image/svg+xml\" href=\"/vite.svg\" />\n    <meta name=\"viewport\" content=\"width=device-width, initial-scale=1.0\" />\n    <title>"
    ++ title
    ++ "</title>\n  </head>\n  <body>\n    <div id=\"app\"></div>\n    <script type=\"module\" src=\""
    ++ mainScriptPath
    ++ "\"></script>\n  </body>\n</html>\n"

/-- `generateHanaLogo`. -/
def generateHanaLogo : String :=
  "<svg xmlns=\"http://www.w3.org/2000/svg\" width=\"48\" height=\"48\" viewBox=\"0 0 24 24\" fill=\"none\" stroke=\"currentColor\" stroke-width=\"2\" stroke-linecap=\"round\" stroke-linejoin=\"round\" class=\"lucide lucide-flower-icon lucide-flower\">\n  <circle cx=\"12\" cy=\"12\" r=\"3\"/>\n  <path d=\"M12 16.5A4.5 4.5 0 1 1 7.5 12 4.5 4.5 0 1 1 12 7.5a4.5 4.5 0 1 1 4.5 4.5 4.5 4.5 0 1 1-4.5 4.5\"/>\n  <path d=\"M12 7.5V9\"/>\n  <path d=\"M7.5 12H9\"/>\n  <path d=\"M16.5 12H15\"/>\n  <path d=\"M12 16.5V15\"/>\n  <path d=\"m8 8 1.88 1.88\"/>\n  <path d=\"M14.12 9.88 16 8\"/>\n  <path d=\"m8 16 1.88-1.88\"/>\n  <path d=\"M14.12 14.12 16 16\"/>\n</svg>\n"

/-- `generateGitignore`. -/
def generateGitignore : String :=
  "# Logs\nlogs\n*.log\nnpm-debug.log*\nyarn-debug.log*\nyarn-error.log*\nlerna-debug.log*\n\n# Runtime data\npids\n*.pid\n*.seed\n*.pid.lock\n\n# Directory for instrumented libs generated by jscoverage/JSCover\nlib-cov\n\n# Coverage directory used by tools like istanbul\ncoverage\n*.lcov\n\n# nyc test coverage\n.nyc_output\n\n# Grunt intermediate storage (https://gruntjs.com/creating-plugins#storing-task-files)\n.grunt\n\n# Bower dependency directory (https://bower.io/)\nbower_components\n\n# node-waf configuration\n.lock-wscript\n\n# Compiled binary addons (https://nodejs.org/api/addons.html)\nbuild/Release\n\n# Dependency directories\nnode_modules/\njspm_packages/\n\n# Snowpack dependency directory (https://snowpack.dev/)\nweb_modules/\n\n# TypeScript cache\n*.tsbuildinfo\n\n# Optional npm cache directory\n.npm\n\n# Optional eslint cache\n.eslintcache\n\n# Microbundle cache\n.rpt2_cache/\n.rts2_cache_cjs/\n.rts2_cache_es/\n.rts2_cache_umd/\n\n# Optional REPL history\n.node_repl_history\n\n# Output of 'npm pack'\n*.tgz\n\n# Yarn Integrity file\n.yarn-integrity\n\n# dotenv environment variables file\n.env\n.env.test\n.env.production\n\n# parcel-bundler cache (https://parceljs.org/)\n.cache\n.parcel-cache\n\n# Next.js build output\n.next\n\n# Nuxt.js build / generate output\n.nuxt\ndist\n\n# Gatsby files\n.cache/\npublic\n\n# Storybook build outputs\n.out\n.storybook-out\n\n# Temporary folders\ntmp/\ntemp/\n\n# Runtime data\npids\n*.pid\n*.seed\n*.pid.lock\n\n# IDE files\n.vscode/\n.idea/\n*.swp\n*.swo\n\n# OS generated files\n.DS_Store\n.DS_Store?\n._*\n.Spotlight-V100\n.Trashes\nehthumbs.db\nThumbs.db\n"

/-- `generateAppFile` (local to the React generator). -/
def generateAppFile : String :=
  "function App() \x7b\n  return (\n    <h1>Hello, vite + react</h1>\n  )\n\x7d\n\nexport default App\n"

/-- `generateMainFile` (local to the React generator). -/
def generateMainFile (appFileName : String) : String :=
  "import \x7b createRoot \x7d from 'react-dom/client'\nimport App from './"
    ++ appFileName
    ++ "'\n\ncreateRoot(document.getElementById('root')!).render(<App />)\n"

/-- `generateCounterFile` (local to the React generator). -/
def generateCounterFile : String :=
  "import \x7b useState \x7d from 'react'\n\nexport function Counter() \x7b\n  const [count, setCount] = useState(0)\n\n  return (\n    <div>\n      <h1>\n        Count:\n        \x7bcount\x7d\n      </h1>\n      <button type=\"button\" onClick=\x7b() => setCount(count + 1)\x7d>+</button>\n      <button type=\"button\" onClick=\x7b() => setCount(count - 1)\x7d>-</button>\n    </div>\n  )\n\x7d\n"

/-- `generateUnoCssConfig` (closure local to `generateCssFramework`;
lifted to the top level, its body is the source's template literal
verbatim, indentation included). -/
def generateUnoCssConfig : String :=
  "import \x7b\n    defineConfig,\n    presetAttributify,\n    presetIcons,\n    presetTypography,\n    presetWebFonts,\n    presetWind3,\n    transformerDirectives,\n    transformerVariantGroup,\n  \x7d from 'unocss'\n  \n  export default defineConfig(\x7b\n    presets: [\n      /* Core Presets */\n      presetWind3(),\n      presetAttributify(),\n      presetIcons(),\n      presetTypography(),\n      presetWebFonts(),\n    ],\n    transformers: [transformerDirectives(), transformerVariantGroup()],\n  \x7d)\n  "

/-! ### The React generator -/

/-- `generateCssFramework(context)`: the `switch (config.cssFramework)`
with its `'tailwindcss'` and `'unocss'` cases (any other value falls
through the switch unchanged). -/
def generateCssFramework (ctx : ProjectContext) : GenResult :=
  if ctx.config.projectType ≠ some "react" then
    .error (.validation ctx.config.projectType) ctx
  else if ctx.config.cssFramework = some "tailwindcss" then
    let devDeps := (ctx.packageJson.devDependencies.getD []).set "tailwindcss" "^4.1.11"
    let ctx := { ctx with packageJson := { ctx.packageJson with devDependencies := some devDeps } }
    if ctx.config.buildTool = some "vite" then
      let devDeps := devDeps.set "@tailwindcss/vite" "^4.1.11"
      let ctx := { ctx with packageJson := { ctx.packageJson with devDependencies := some devDeps } }
      let ctx := { ctx with files := ctx.files.set "src/styles/global.css" "@import \"tailwindcss\";" }
      match ctx.viteConfigEditor with
      | none => .error .missingEditor ctx
      | some edv =>
        let ctx := { ctx with
          viteConfigEditor :=
            some ((edv.addImport "import tailwindcss from '@tailwindcss/vite'").addVitePlugin "tailwindcss()") }
        match ctx.mainEditor with
        | none => .error .missingEditor ctx
        | some edm =>
          .ok { ctx with mainEditor := some (edm.addImport "import './styles/global.css'") }
    else .ok ctx
  else if ctx.config.cssFramework = some "unocss" then
    let devDeps := (ctx.packageJson.devDependencies.getD []).set "unocss" "^66.3.3"
    let ctx := { ctx with packageJson := { ctx.packageJson with devDependencies := some devDeps } }
    if ctx.config.buildTool = some "vite" then
      let ctx := { ctx with files := ctx.files.set "uno.config.ts" generateUnoCssConfig }
      match ctx.viteConfigEditor with
      | none => .error .missingEditor ctx
      | some edv =>
        let ctx := { ctx with
          viteConfigEditor :=
            some ((edv.addImport "import UnoCSS from 'unocss/vite'").addVitePlugin "UnoCSS()") }
        match ctx.mainEditor with
        | none => .error .missingEditor ctx
        | some edm =>
          .ok { ctx with mainEditor := some (edm.addImport "import 'virtual:uno.css'") }
    else .ok ctx
  else .ok ctx

/-- `generateCssPreprocessor(context)`: the `switch
(config.cssPreprocessor)` with its `'less'` and `'scss'` cases. -/
def generateCssPreprocessor (ctx : ProjectContext) : GenResult :=
  if ctx.config.projectType ≠ some "react" then
    .error (.validation ctx.config.projectType) ctx
  else if ctx.config.cssPreprocessor = some "less" then
    .ok { ctx with
      packageJson := { ctx.packageJson with
        devDependencies :=
          some ((ctx.packageJson.devDependencies.getD []).set "less" "^4.3.0") } }
  else if ctx.config.cssPreprocessor = some "scss" then
    .ok { ctx with
      packageJson := { ctx.packageJson with
        devDependencies :=
          some ((ctx.packageJson.devDependencies.getD []).set "sass" "^1.89.2") } }
  else .ok ctx

/-- Step of `reactGenerator.generate`: `if (config.buildTool === 'vite')
\x7b viteConfigEditor!.addImport(...); viteConfigEditor!.addVitePlugin(...) \x7d`. -/
def reactViteStep (ctx : ProjectContext) : GenResult :=
  if ctx.config.buildTool = some "vite" then
    match ctx.viteConfigEditor with
    | none => .error .missingEditor ctx
    | some edv =>
      .ok { ctx with
        viteConfigEditor :=
          some ((edv.addImport "import react from '@vitejs/plugin-react'").addVitePlugin "react()") }
  else .ok ctx

/-- Steps 1–3 of `reactGenerator.generate`: the src-directory files,
the root files, and the package.json fields.  The counter path is the
source's `` `src/components/counter.$\x7bfileExtension\x7dx` `` — note
`fileExtension` itself starts with a dot. -/
def reactCoreWrites (ctx : ProjectContext) : ProjectContext :=
  let projectName := jsOr ctx.config.targetDir "hana-project"
  let appFileName := "src/app" ++ ctx.fileExtension ++ "x"
  let mainFileName := "src/main" ++ ctx.fileExtension ++ "x"
  let counterFileName := "src/components/counter." ++ ctx.fileExtension ++ "x"
  let files := ctx.files.set appFileName generateAppFile
  let files := files.set mainFileName (generateMainFile appFileName)
  let files := files.set counterFileName generateCounterFile
  let files := if ctx.config.language = some "typescript" then
      files.set "src/vite-env.d.ts" generateViteEnvFile
    else files
  let files := files.set "public/favicon.svg" generateHanaLogo
  let files := files.set "index.html" (generateHtmlTemplate "react project" ("/" ++ mainFileName))
  let files := files.set "README.md"
    (generateReadmeTemplate (ctx.config.projectType.getD "") projectName (some "A React project"))
  let files := files.set ".gitignore" generateGitignore
  { ctx with
    files := files
    packageJson := { ctx.packageJson with
      name := projectName
      description := some "A React project"
      version := "1.0.0"
      license := some "MIT"
      engines := [("node", ">=18.12.0")] } }

/-- Step 4a of `reactGenerator.generate`: `if (config.cssFramework &&
config.cssFramework !== 'none') generateCssFramework(context)`
(JavaScript truthiness: `undefined` and `''` skip). -/
def cssFwStep (ctx : ProjectContext) : GenResult :=
  match ctx.config.cssFramework with
  | none => .ok ctx
  | some fw => if fw = "" then .ok ctx else if fw = "none" then .ok ctx
      else generateCssFramework ctx

/-- Step 4b of `reactGenerator.generate`: `if (config.cssPreprocessor)
generateCssPreprocessor(context)`. -/
def cssPreStep (ctx : ProjectContext) : GenResult :=
  match ctx.config.cssPreprocessor with
  | none => .ok ctx
  | some p => if p = "" then .ok ctx else generateCssPreprocessor ctx

/-- `reactGenerator.generate(context)`. -/
def reactGenerator.generate (ctx : ProjectContext) : GenResult :=
  if ctx.config.projectType ≠ some "react" then
    .error (.validation ctx.config.projectType) ctx
  else
    (reactViteStep ctx).next fun ctx =>
      (cssFwStep (reactCoreWrites ctx)).next cssPreStep

/-- Dev-dependency read, through the `devDependencies || \x7b\x7d`
default. -/
def ProjectContext.devDep (ctx : ProjectContext) (k : String) : Option String :=
  (ctx.packageJson.devDependencies.getD []).get k

/-! ### `renderTemplate` (src/utils/template)

`renderTemplate` folds over `Object.entries(variables)` and, for each
`[key, value]`, replaces every non-overlapping, left-to-right match of
the regular expression `\x7b\x7b\s*key\s*\x7d\x7d` (flag `g`) by
`value`.  The scan below is that regex for the keys the call sites
use: `key` is matched literally (an identifier has no regex
metacharacter), `\s` is the JavaScript whitespace class, and the
replacement is inserted verbatim and never rescanned. -/

/-- JavaScript's `\s` character class (ASCII part plus the Unicode
space separators it names). -/
def isJsSpace (c : Char) : Bool :=
  c = ' ' || c = '\t' || c = '\n' || c = '\r' || c = '\x0b' || c = '\x0c' ||
  c = '\u00a0' || c = '\u1680' || ('\u2000' ≤ c && c ≤ '\u200a') ||
  c = '\u2028' || c = '\u2029' || c = '\u202f' || c = '\u205f' ||
  c = '\u3000' || c = '\ufeff'

/-- One attempted match of `\x7b\x7b\s*key\s*\x7d\x7d` at the head of
the text; `some rest` is the text after the match. -/
def matchVar (key : List Char) : List Char → Option (List Char)
  | '{' :: '{' :: rest =>
    if key.isPrefixOf (rest.dropWhile isJsSpace) then
      match ((rest.dropWhile isJsSpace).drop key.length).dropWhile isJsSpace with
      | '}' :: '}' :: rest2 => some rest2
      | _ => none
    else none
  | _ => none

theorem List.length_dropWhile_le' (p : α → Bool) (l : List α) :
    (l.dropWhile p).length ≤ l.length := by
  induction l with
  | nil => simp
  | cons a l ih =>
    rw [List.dropWhile_cons]
    split
    · exact Nat.le_trans ih (Nat.le_succ _)
    · simp

theorem matchVar_length {key l r : List Char} (h : matchVar key l = some r) :
    r.length < l.length := by
  unfold matchVar at h
  split at h
  · rename_i rest
    split at h
    · split at h
      · rename_i rest2 heq
        injection h with h
        subst h
        have e1 : rest2.length + 2 ≤ ((rest.dropWhile isJsSpace).drop key.length).length := by
          have e0 := List.length_dropWhile_le' isJsSpace ((rest.dropWhile isJsSpace).drop key.length)
          rw [heq] at e0
          simpa using e0
        have e2 : ((rest.dropWhile isJsSpace).drop key.length).length ≤ (rest.dropWhile isJsSpace).length := by
          rw [List.length_drop]; omega
        have e3 : (rest.dropWhile isJsSpace).length ≤ rest.length :=
          List.length_dropWhile_le' _ _
        simp only [List.length_cons]
        omega
      · exact absurd h (by simp)
    · exact absurd h (by simp)
  · exact absurd h (by simp)

/-- The global replace `result.replace(regex, value)`: left-to-right,
non-overlapping, the inserted `value` not rescanned. -/
def replaceVarAll (key value : List Char) : List Char → List Char
  | [] => []
  | c :: rest =>
    match h : matchVar key (c :: rest) with
    | some rest2 => value ++ replaceVarAll key value rest2
    | none => c :: replaceVarAll key value rest
termination_by l => l.length
decreasing_by
  · exact matchVar_length h
  · simp only [List.length_cons]; omega

/-- `renderTemplate(template, variables)`; `vars` is in
`Object.entries` order. -/
def renderTemplate (template : String) (vars : List (String × String)) : String :=
  vars.foldl
    (fun result kv => String.mk (replaceVarAll kv.1.toList kv.2.toList result.toList))
    template

/-- `addImport` iterated N times with the same statement. -/
def Editor.addImportN (e : Editor) (s : String) : Nat → Editor
  | 0 => e
  | n + 1 => (e.addImportN s n).addImport s

/-- Modelled from the spec (§4.3): the imports block `render` emits —
"all accumulated import statements, one per line, in insertion
order". -/
def Editor.renderImportsBlock (e : Editor) : String :=
  String.intercalate "\n" e.imports

/-! ### Association-list and editor lemmas -/

theorem FileMap.get_set_self (m : FileMap) (k v : String) :
    (m.set k v).get k = some v := by
  induction m with
  | nil => simp [FileMap.set, FileMap.get]
  | cons hd tl ih =>
    obtain ⟨k', v'⟩ := hd
    by_cases h : k' = k
    · simp [FileMap.set, FileMap.get, h]
    · simp [FileMap.set, FileMap.get, h, ih]

theorem FileMap.get_set_ne (m : FileMap) {k k' : String} (v : String) (h : k' ≠ k) :
    (m.set k v).get k' = m.get k' := by
  induction m with
  | nil => simp [FileMap.set, FileMap.get, Ne.symm h]
  | cons hd tl ih =>
    obtain ⟨k0, v0⟩ := hd
    by_cases h0 : k0 = k
    · subst h0
      simp [FileMap.set, FileMap.get, Ne.symm h]
    · by_cases h1 : k0 = k'
      · simp [FileMap.set, FileMap.get, h0, h1, h]
      · simp [FileMap.set, FileMap.get, h0, h1, ih]

theorem Editor.mem_addImport_self (e : Editor) (s : String) :
    s ∈ (e.addImport s).imports := by
  unfold Editor.addImport
  by_cases h : s ∈ e.imports <;> simp [h]

theorem Editor.addImport_of_mem {e : Editor} {s : String} (h : s ∈ e.imports) :
    e.addImport s = e := by
  simp [Editor.addImport, h]

theorem Editor.addVitePlugin_imports (e : Editor) (s : String) :
    (e.addVitePlugin s).imports = e.imports := by
  unfold Editor.addVitePlugin
  by_cases h : s ∈ e.plugins <;> simp [h]

theorem Editor.addImport_plugins (e : Editor) (s : String) :
    (e.addImport s).plugins = e.plugins := by
  unfold Editor.addImport
  by_cases h : s ∈ e.imports <;> simp [h]

theorem Editor.mem_addVitePlugin_self (e : Editor) (s : String) :
    s ∈ (e.addVitePlugin s).plugins := by
  unfold Editor.addVitePlugin
  by_cases h : s ∈ e.plugins <;> simp [h]

theorem Editor.count_addImport_of_not_mem {e : Editor} {s : String} (h : s ∉ e.imports) :
    (e.addImport s).imports.count s = 1 := by
  simp [Editor.addImport, h, List.count_append, List.count_eq_zero.mpr h]

/-! ### Step-level lemmas about the React generator -/

theorem reactViteStep_vite {ctx : ProjectContext} {edv : Editor}
    (hbt : ctx.config.buildTool = some "vite") (hv : ctx.viteConfigEditor = some edv) :
    reactViteStep ctx = .ok { ctx with
      viteConfigEditor :=
        some ((edv.addImport "import react from '@vitejs/plugin-react'").addVitePlugin "react()") } := by
  simp [reactViteStep, hbt, hv]

theorem reactViteStep_not_vite {ctx : ProjectContext}
    (hbt : ctx.config.buildTool ≠ some "vite") :
    reactViteStep ctx = .ok ctx := by
  simp [reactViteStep, hbt]

theorem reactViteStep_frame {ctx ctxA : ProjectContext}
    (h : reactViteStep ctx = .ok ctxA) :
    ctxA.config = ctx.config ∧ ctxA.files = ctx.files ∧
    ctxA.packageJson = ctx.packageJson ∧ ctxA.fileExtension = ctx.fileExtension ∧
    ctxA.mainEditor = ctx.mainEditor := by
  unfold reactViteStep at h
  split at h
  · split at h
    · exact absurd h (by simp)
    · injection h with h
      subst h
      exact ⟨rfl, rfl, rfl, rfl, rfl⟩
  · injection h with h
    subst h
    exact ⟨rfl, rfl, rfl, rfl, rfl⟩

theorem generateCssFramework_tailwind_vite {ctx : ProjectContext} {edv edm : Editor}
    (hpt : ctx.config.projectType = some "react")
    (hfw : ctx.config.cssFramework = some "tailwindcss")
    (hbt : ctx.config.buildTool = some "vite")
    (hv : ctx.viteConfigEditor = some edv) (hm : ctx.mainEditor = some edm) :
    generateCssFramework ctx = .ok { ctx with
      packageJson := { ctx.packageJson with
        devDependencies :=
          some (((ctx.packageJson.devDependencies.getD []).set "tailwindcss" "^4.1.11").set "@tailwindcss/vite" "^4.1.11") }
      files := ctx.files.set "src/styles/global.css" "@import \"tailwindcss\";"
      viteConfigEditor :=
        some ((edv.addImport "import tailwindcss from '@tailwindcss/vite'").addVitePlugin "tailwindcss()")
      mainEditor := some (edm.addImport "import './styles/global.css'") } := by
  simp [generateCssFramework, hpt, hfw, hbt, hv, hm]

theorem generateCssFramework_tailwind_not_vite {ctx : ProjectContext}
    (hpt : ctx.config.projectType = some "react")
    (hfw : ctx.config.cssFramework = some "tailwindcss")
    (hbt : ctx.config.buildTool ≠ some "vite") :
    generateCssFramework ctx = .ok { ctx with
      packageJson := { ctx.packageJson with
        devDependencies :=
          some ((ctx.packageJson.devDependencies.getD []).set "tailwindcss" "^4.1.11") } } := by
  simp [generateCssFramework, hpt, hfw, hbt]

theorem generateCssFramework_unocss_vite {ctx : ProjectContext} {edv edm : Editor}
    (hpt : ctx.config.projectType = some "react")
    (hfw : ctx.config.cssFramework = some "unocss")
    (hbt : ctx.config.buildTool = some "vite")
    (hv : ctx.viteConfigEditor = some edv) (hm : ctx.mainEditor = some edm) :
    generateCssFramework ctx = .ok { ctx with
      packageJson := { ctx.packageJson with
        devDependencies := some ((ctx.packageJson.devDependencies.getD []).set "unocss" "^66.3.3") }
      files := ctx.files.set "uno.config.ts" generateUnoCssConfig
      viteConfigEditor :=
        some ((edv.addImport "import UnoCSS from 'unocss/vite'").addVitePlugin "UnoCSS()")
      mainEditor := some (edm.addImport "import 'virtual:uno.css'") } := by
  simp [generateCssFramework, hpt, hfw, hbt, hv, hm]

/-- `cssPreStep` on a react context always succeeds and only ever touches
the `less` / `sass` dev-dependency entries. -/
theorem cssPreStep_total (ctx : ProjectContext)
    (hpt : ctx.config.projectType = some "react") :
    ∃ ctx2, cssPreStep ctx = .ok ctx2 ∧
      ctx2.files = ctx.files ∧
      ctx2.viteConfigEditor = ctx.viteConfigEditor ∧
      ctx2.mainEditor = ctx.mainEditor ∧
      ctx2.packageJson.name = ctx.packageJson.name ∧
      ∀ k, k ≠ "less" → k ≠ "sass" → ctx2.devDep k = ctx.devDep k := by
  unfold cssPreStep
  cases hcp : ctx.config.cssPreprocessor with
  | none => exact ⟨ctx, rfl, rfl, rfl, rfl, rfl, fun _ _ _ => rfl⟩
  | some p =>
    dsimp only
    by_cases hp0 : p = ""
    · subst hp0
      exact ⟨ctx, by simp, rfl, rfl, rfl, rfl, fun _ _ _ => rfl⟩
    · rw [if_neg hp0]
      unfold generateCssPreprocessor
      rw [if_neg (by simp [hpt])]
      by_cases hpl : p = "less"
      · subst hpl
        rw [if_pos (by rw [hcp]), ]
        refine ⟨_, rfl, rfl, rfl, rfl, rfl, fun k hk1 _ => ?_⟩
        simp only [ProjectContext.devDep, Option.getD_some]
        exact FileMap.get_set_ne _ _ hk1
      · by_cases hps : p = "scss"
        · subst hps
          rw [if_neg (by rw [hcp]; simp), if_pos (by rw [hcp])]
          refine ⟨_, rfl, rfl, rfl, rfl, rfl, fun k _ hk2 => ?_⟩
          simp only [ProjectContext.devDep, Option.getD_some]
          exact FileMap.get_set_ne _ _ hk2
        · rw [if_neg (by rw [hcp]; simp [hpl]), if_neg (by rw [hcp]; simp [hps])]
          exact ⟨ctx, rfl, rfl, rfl, rfl, rfl, fun _ _ _ => rfl⟩

/-- A successful `cssPreStep` keeps everything except possibly the
`less` / `sass` dev-dependency entries. -/
theorem cssPreStep_frame {ctx ctx2 : ProjectContext} (h : cssPreStep ctx = .ok ctx2) :
    ctx2.files = ctx.files ∧ ctx2.viteConfigEditor = ctx.viteConfigEditor ∧
    ctx2.mainEditor = ctx.mainEditor ∧
    ctx2.packageJson.name = ctx.packageJson.name ∧
    ∀ k, k ≠ "less" → k ≠ "sass" → ctx2.devDep k = ctx.devDep k := by
  unfold cssPreStep at h
  split at h
  · injection h with h; subst h
    exact ⟨rfl, rfl, rfl, rfl, fun _ _ _ => rfl⟩
  · split at h
    · injection h with h; subst h
      exact ⟨rfl, rfl, rfl, rfl, fun _ _ _ => rfl⟩
    · unfold generateCssPreprocessor at h
      split at h
      · exact absurd h (by simp)
      · split at h
        · injection h with h; subst h
          refine ⟨rfl, rfl, rfl, rfl, fun k hk1 _ => ?_⟩
          simp only [ProjectContext.devDep, Option.getD_some]
          exact FileMap.get_set_ne _ _ hk1
        · split at h
          · injection h with h; subst h
            refine ⟨rfl, rfl, rfl, rfl, fun k _ hk2 => ?_⟩
            simp only [ProjectContext.devDep, Option.getD_some]
            exact FileMap.get_set_ne _ _ hk2
          · injection h with h; subst h
            exact ⟨rfl, rfl, rfl, rfl, fun _ _ _ => rfl⟩

/-- A successful `cssFwStep` keeps the config, the manifest name, and
every file entry except `src/styles/global.css` and `uno.config.ts`. -/
theorem cssFwStep_frame {ctx ctx2 : ProjectContext} (h : cssFwStep ctx = .ok ctx2) :
    ctx2.config = ctx.config ∧ ctx2.fileExtension = ctx.fileExtension ∧
    ctx2.packageJson.name = ctx.packageJson.name ∧
    ∀ k, k ≠ "src/styles/global.css" → k ≠ "uno.config.ts" →
      ctx2.files.get k = ctx.files.get k := by
  unfold cssFwStep at h
  split at h
  · injection h with h; subst h
    exact ⟨rfl, rfl, rfl, fun _ _ _ => rfl⟩
  · split at h
    · injection h with h; subst h
      exact ⟨rfl, rfl, rfl, fun _ _ _ => rfl⟩
    · split at h
      · injection h with h; subst h
        exact ⟨rfl, rfl, rfl, fun _ _ _ => rfl⟩
      · unfold generateCssFramework at h
        dsimp only at h
        split at h
        · exact absurd h (by simp)
        · split at h
          · split at h
            · split at h
              · exact absurd h (by simp)
              · split at h
                · exact absurd h (by simp)
                · injection h with h; subst h
                  refine ⟨rfl, rfl, rfl, fun k hk1 _ => ?_⟩
                  exact FileMap.get_set_ne _ _ hk1
            · injection h with h; subst h
              exact ⟨rfl, rfl, rfl, fun _ _ _ => rfl⟩
          · split at h
            · split at h
              · split at h
                · exact absurd h (by simp)
                · split at h
                  · exact absurd h (by simp)
                  · injection h with h; subst h
                    refine ⟨rfl, rfl, rfl, fun k _ hk2 => ?_⟩
                    exact FileMap.get_set_ne _ _ hk2
              · injection h with h; subst h
                exact ⟨rfl, rfl, rfl, fun _ _ _ => rfl⟩
            · injection h with h; subst h
              exact ⟨rfl, rfl, rfl, fun _ _ _ => rfl⟩

/-- A successful run of the React generator factors into its steps. -/
theorem generate_ok_split {ctx ctx2 : ProjectContext}
    (h : reactGenerator.generate ctx = .ok ctx2) :
    ctx.config.projectType = some "react" ∧
    ∃ ctxA ctxC, reactViteStep ctx = .ok ctxA ∧
      cssFwStep (reactCoreWrites ctxA) = .ok ctxC ∧
      cssPreStep ctxC = .ok ctx2 := by
  unfold reactGenerator.generate at h
  by_cases hpt : ctx.config.projectType = some "react"
  · refine ⟨hpt, ?_⟩
    rw [if_neg (by simp [hpt])] at h
    cases hA : reactViteStep ctx with
    | error e c => rw [hA] at h; exact absurd h (by simp [GenResult.next])
    | ok ctxA =>
      rw [hA] at h
      simp only [GenResult.next] at h
      cases hC : cssFwStep (reactCoreWrites ctxA) with
      | error e c => rw [hC] at h; exact absurd h (by simp [GenResult.next])
      | ok ctxC =>
        rw [hC] at h
        simp only [GenResult.next] at h
        exact ⟨ctxA, ctxC, rfl, hC, h⟩
  · rw [if_pos hpt] at h
    exact absurd h (by simp)

/-! ### Concrete contexts used to instantiate the theorems -/

/-- The final context of a run, successful or not. -/
def GenResult.ctxOf : GenResult → ProjectContext
  | .ok c => c
  | .error _ c => c

/-- Whether a run succeeded. -/
def GenResult.isOk : GenResult → Bool
  | .ok _ => true
  | .error _ _ => false

def sampleVueCtx : ProjectContext :=
  { config := { projectType := some "vue" }, fileExtension := ".ts" }

def sampleTailwindCtx : ProjectContext :=
  { config := { projectType := some "react", language := some "typescript",
                buildTool := some "vite", cssFramework := some "tailwindcss" }
    fileExtension := ".ts"
    viteConfigEditor := some {}
    mainEditor := some {} }

def sampleUnoCtx : ProjectContext :=
  { config := { projectType := some "react", language := some "typescript",
                buildTool := some "vite", cssFramework := some "unocss" }
    fileExtension := ".ts"
    viteConfigEditor := some {}
    mainEditor := some {} }

def samplePlainTsCtx : ProjectContext :=
  { config := { projectType := some "react", language := some "typescript" }
    fileExtension := ".ts" }

def samplePlainJsCtx : ProjectContext :=
  { config := { projectType := some "react", language := some "javascript" }
    fileExtension := ".js" }

def sampleTailwindWebpackCtx : ProjectContext :=
  { config := { projectType := some "react", language := some "typescript",
                buildTool := some "webpack", cssFramework := some "tailwindcss" }
    fileExtension := ".ts" }

/-! ### The claims -/

/-- C2: for every configuration whose `projectType` is not `'react'`,
the React generator raises the typed validation error carrying the
offending `projectType` value and leaves the context exactly as it was
(zero mutations to `context.files` / `context.packageJson`). -/
theorem c2_type_mismatch_rejection (ctx : ProjectContext)
    (h : ctx.config.projectType ≠ some "react") :
    reactGenerator.generate ctx = .error (.validation ctx.config.projectType) ctx := by
  unfold reactGenerator.generate
  rw [if_pos h]

theorem c2_witness :
    sampleVueCtx.config.projectType ≠ some "react" ∧
    reactGenerator.generate sampleVueCtx =
      .error (.validation sampleVueCtx.config.projectType) sampleVueCtx :=
  ⟨by decide, c2_type_mismatch_rejection sampleVueCtx (by decide)⟩

/-- C3: calling `addImport` with the exact same string `n ≥ 1` times
leaves exactly one occurrence of it in the ordered import set; every
call after the first is a no-op, so the rendered imports block equals
that of a single call. -/
theorem c3_addImport_idempotent (e : Editor) (s : String) (n : Nat)
    (hn : 1 ≤ n) (hs : s ∉ e.imports) :
    (e.addImportN s n).imports.count s = 1 ∧
    e.addImportN s n = e.addImport s ∧
    (e.addImportN s n).renderImportsBlock = (e.addImport s).renderImportsBlock := by
  have key : ∀ m, e.addImportN s (m + 1) = e.addImport s := by
    intro m
    induction m with
    | zero => rfl
    | succ k ih =>
      show (e.addImportN s (k + 1)).addImport s = e.addImport s
      rw [ih, Editor.addImport_of_mem (Editor.mem_addImport_self e s)]
  obtain ⟨m, rfl⟩ : ∃ m, n = m + 1 := ⟨n - 1, by omega⟩
  refine ⟨?_, key m, by rw [key m]⟩
  rw [key m]
  exact Editor.count_addImport_of_not_mem hs

theorem c3_witness :
    (1 ≤ 3 ∧ "import React from 'react'" ∉ ({} : Editor).imports) ∧
    ((({} : Editor).addImportN "import React from 'react'" 3).imports.count "import React from 'react'" = 1 ∧
     ({} : Editor).addImportN "import React from 'react'" 3 = ({} : Editor).addImport "import React from 'react'" ∧
     (({} : Editor).addImportN "import React from 'react'" 3).renderImportsBlock =
       (({} : Editor).addImport "import React from 'react'").renderImportsBlock) :=
  ⟨⟨by decide, by decide⟩,
   c3_addImport_idempotent {} "import React from 'react'" 3 (by decide) (by decide)⟩

/-- C5 (evaluating the code at the failing input): for a react +
typescript configuration the generator emits the counter component at
`src/components/counter..tsx` — a double dot, because the source
interpolates `fileExtension` (which already starts with a dot) after a
literal dot — and not at `src/components/counter.tsx` as the spec's
path list (`src/components/counter.{ext}x` alongside `src/app.{ext}x`)
describes. -/
theorem c5_counter_path_double_dot :
    (reactGenerator.generate samplePlainTsCtx).isOk = true ∧
    ((reactGenerator.generate samplePlainTsCtx).ctxOf.files.get
        "src/components/counter..tsx").isSome = true ∧
    (reactGenerator.generate samplePlainTsCtx).ctxOf.files.get
        "src/components/counter.tsx" = none :=
  ⟨rfl, rfl, rfl⟩

/-- C8: generation is deterministic — two runs on identically
initialized contexts return the same result, in particular
byte-identical file maps and manifest objects.  (The embedding is a
pure function, so this is determinism by construction: the source has
no clock, randomness or global state.) -/
theorem c8_determinism (ctx ctx' : ProjectContext) (h : ctx = ctx') :
    reactGenerator.generate ctx = reactGenerator.generate ctx' ∧
    ∀ r r', reactGenerator.generate ctx = .ok r → reactGenerator.generate ctx' = .ok r' →
      r.files = r'.files ∧ r.packageJson = r'.packageJson := by
  subst h
  refine ⟨rfl, fun r r' h1 h2 => ?_⟩
  rw [h1] at h2
  injection h2 with h2
  subst h2
  exact ⟨rfl, rfl⟩

theorem c8_witness :
    sampleTailwindCtx = sampleTailwindCtx ∧
    (reactGenerator.generate sampleTailwindCtx = reactGenerator.generate sampleTailwindCtx ∧
     ∀ r r', reactGenerator.generate sampleTailwindCtx = .ok r →
       reactGenerator.generate sampleTailwindCtx = .ok r' →
       r.files = r'.files ∧ r.packageJson = r'.packageJson) :=
  ⟨rfl, c8_determinism sampleTailwindCtx sampleTailwindCtx rfl⟩

/-- C1: for every configuration with `projectType 'react'`, `language
'typescript'`, `buildTool 'vite'` and `cssFramework 'tailwindcss'`
(editors present, extension as the orchestrator derives it from the
language), the generator succeeds; the file map contains
`src/app.tsx`, `src/main.tsx`, `src/vite-env.d.ts`, and
`src/styles/global.css` with exactly `@import "tailwindcss";`; the
dev-dependencies hold `tailwindcss` and `@tailwindcss/vite` at
`^4.1.11`; and the viteConfig editor's store contains the tailwind
statement of import and the `tailwindcss()` plugin expression. -/
theorem c1_react_vite_tailwind
    (ctx : ProjectContext) (edv edm : Editor)
    (hpt : ctx.config.projectType = some "react")
    (hlang : ctx.config.language = some "typescript")
    (hbt : ctx.config.buildTool = some "vite")
    (hfw : ctx.config.cssFramework = some "tailwindcss")
    (hext : ctx.fileExtension = getFileExtension "typescript")
    (hv : ctx.viteConfigEditor = some edv)
    (hm : ctx.mainEditor = some edm) :
    ∃ ctx2, reactGenerator.generate ctx = .ok ctx2 ∧
      (ctx2.files.get "src/app.tsx").isSome ∧
      (ctx2.files.get "src/main.tsx").isSome ∧
      (ctx2.files.get "src/vite-env.d.ts").isSome ∧
      ctx2.files.get "src/styles/global.css" = some "@import \"tailwindcss\";" ∧
      ctx2.devDep "tailwindcss" = some "^4.1.11" ∧
      ctx2.devDep "@tailwindcss/vite" = some "^4.1.11" ∧
      ∃ e, ctx2.viteConfigEditor = some e ∧
        "import tailwindcss from '@tailwindcss/vite'" ∈ e.imports ∧
        "tailwindcss()" ∈ e.plugins := by
  have hext' : ctx.fileExtension = ".ts" := by simpa [getFileExtension] using hext
  have hA := reactViteStep_vite hbt hv
  set edv2 : Editor :=
    (edv.addImport "import react from '@vitejs/plugin-react'").addVitePlugin "react()" with hedv2
  set ctxA : ProjectContext := { ctx with viteConfigEditor := some edv2 } with hActx
  set ctxB : ProjectContext := reactCoreWrites ctxA with hBctx
  have hBpt : ctxB.config.projectType = some "react" := hpt
  have hBfw : ctxB.config.cssFramework = some "tailwindcss" := hfw
  have hBbt : ctxB.config.buildTool = some "vite" := hbt
  have hBv : ctxB.viteConfigEditor = some edv2 := rfl
  have hBm : ctxB.mainEditor = some edm := hm
  have hC := generateCssFramework_tailwind_vite hBpt hBfw hBbt hBv hBm
  set ctxC : ProjectContext := { ctxB with
    packageJson := { ctxB.packageJson with
      devDependencies :=
        some (((ctxB.packageJson.devDependencies.getD []).set "tailwindcss" "^4.1.11").set "@tailwindcss/vite" "^4.1.11") }
    files := ctxB.files.set "src/styles/global.css" "@import \"tailwindcss\";"
    viteConfigEditor :=
      some ((edv2.addImport "import tailwindcss from '@tailwindcss/vite'").addVitePlugin "tailwindcss()")
    mainEditor := some (edm.addImport "import './styles/global.css'") } with hCctx
  have hCss : cssFwStep ctxB = generateCssFramework ctxB := by
    unfold cssFwStep
    rw [hBfw]
    simp
  have hCpt : ctxC.config.projectType = some "react" := hpt
  obtain ⟨ctx2, hP, hPf, hPv, hPm, hPn, hPd⟩ := cssPreStep_total ctxC hCpt
  have hBfiles : ctxB.files =
      ((((((((ctx.files.set "src/app.tsx" generateAppFile).set
        "src/main.tsx" (generateMainFile "src/app.tsx")).set
        "src/components/counter..tsx" generateCounterFile).set
        "src/vite-env.d.ts" generateViteEnvFile).set
        "public/favicon.svg" generateHanaLogo).set
        "index.html" (generateHtmlTemplate "react project" "/src/main.tsx")).set
        "README.md" (generateReadmeTemplate "react"
          (jsOr ctx.config.targetDir "hana-project") (some "A React project"))).set
        ".gitignore" generateGitignore) := by
    rw [hBctx]
    simp [reactCoreWrites, hActx, hext', hlang, hpt]
  refine ⟨ctx2, ?_, ?_, ?_, ?_, ?_, ?_, ?_, ?_⟩
  · unfold reactGenerator.generate
    rw [if_neg (by simp [hpt]), hA]
    simp only [GenResult.next]
    rw [← hBctx, hCss, hC]
    simp only [GenResult.next]
    exact hP
  · rw [hPf, show ctxC.files = ctxB.files.set "src/styles/global.css" "@import \"tailwindcss\";" from rfl,
       FileMap.get_set_ne _ _ (by decide), hBfiles]
    simp [FileMap.get_set_self, FileMap.get_set_ne]
  · rw [hPf, show ctxC.files = ctxB.files.set "src/styles/global.css" "@import \"tailwindcss\";" from rfl,
       FileMap.get_set_ne _ _ (by decide), hBfiles]
    simp [FileMap.get_set_self, FileMap.get_set_ne]
  · rw [hPf, show ctxC.files = ctxB.files.set "src/styles/global.css" "@import \"tailwindcss\";" from rfl,
       FileMap.get_set_ne _ _ (by decide), hBfiles]
    simp [FileMap.get_set_self, FileMap.get_set_ne]
  · rw [hPf, show ctxC.files = ctxB.files.set "src/styles/global.css" "@import \"tailwindcss\";" from rfl,
       FileMap.get_set_self]
  · rw [hPd "tailwindcss" (by decide) (by decide)]
    simp only [ProjectContext.devDep,
      show ctxC.packageJson.devDependencies =
        some (((ctxB.packageJson.devDependencies.getD []).set "tailwindcss" "^4.1.11").set "@tailwindcss/vite" "^4.1.11") from rfl,
      Option.getD_some]
    rw [FileMap.get_set_ne _ _ (by decide), FileMap.get_set_self]
  · rw [hPd "@tailwindcss/vite" (by decide) (by decide)]
    simp only [ProjectContext.devDep,
      show ctxC.packageJson.devDependencies =
        some (((ctxB.packageJson.devDependencies.getD []).set "tailwindcss" "^4.1.11").set "@tailwindcss/vite" "^4.1.11") from rfl,
      Option.getD_some]
    rw [FileMap.get_set_self]
  · refine ⟨(edv2.addImport "import tailwindcss from '@tailwindcss/vite'").addVitePlugin "tailwindcss()",
      ?_, ?_, ?_⟩
    · rw [hPv]
    · rw [Editor.addVitePlugin_imports]
      exact Editor.mem_addImport_self _ _
    · exact Editor.mem_addVitePlugin_self _ _

theorem c1_witness :
    ∃ ctx2, reactGenerator.generate sampleTailwindCtx = .ok ctx2 ∧
      (ctx2.files.get "src/app.tsx").isSome ∧
      (ctx2.files.get "src/main.tsx").isSome ∧
      (ctx2.files.get "src/vite-env.d.ts").isSome ∧
      ctx2.files.get "src/styles/global.css" = some "@import \"tailwindcss\";" ∧
      ctx2.devDep "tailwindcss" = some "^4.1.11" ∧
      ctx2.devDep "@tailwindcss/vite" = some "^4.1.11" ∧
      ∃ e, ctx2.viteConfigEditor = some e ∧
        "import tailwindcss from '@tailwindcss/vite'" ∈ e.imports ∧
        "tailwindcss()" ∈ e.plugins :=
  c1_react_vite_tailwind sampleTailwindCtx {} {} rfl rfl rfl rfl (by decide) rfl rfl

/-- C6: for every configuration with `projectType 'react'`, `language
'typescript'`, `buildTool 'vite'` and `cssFramework 'unocss'` (editors
present), the generator succeeds, the file map contains
`uno.config.ts`, the dev-dependencies hold `unocss = '^66.3.3'`, and
the main-entry editor's import set contains exactly the string
`import 'virtual:uno.css'`. -/
theorem c6_react_vite_unocss
    (ctx : ProjectContext) (edv edm : Editor)
    (hpt : ctx.config.projectType = some "react")
    (hlang : ctx.config.language = some "typescript")
    (hbt : ctx.config.buildTool = some "vite")
    (hfw : ctx.config.cssFramework = some "unocss")
    (hext : ctx.fileExtension = getFileExtension "typescript")
    (hv : ctx.viteConfigEditor = some edv)
    (hm : ctx.mainEditor = some edm) :
    ∃ ctx2, reactGenerator.generate ctx = .ok ctx2 ∧
      (ctx2.files.get "uno.config.ts").isSome ∧
      ctx2.devDep "unocss" = some "^66.3.3" ∧
      ∃ e, ctx2.mainEditor = some e ∧ "import 'virtual:uno.css'" ∈ e.imports := by
  have hA := reactViteStep_vite hbt hv
  set edv2 : Editor :=
    (edv.addImport "import react from '@vitejs/plugin-react'").addVitePlugin "react()" with hedv2
  set ctxA : ProjectContext := { ctx with viteConfigEditor := some edv2 } with hActx
  set ctxB : ProjectContext := reactCoreWrites ctxA with hBctx
  have hBpt : ctxB.config.projectType = some "react" := hpt
  have hBfw : ctxB.config.cssFramework = some "unocss" := hfw
  have hBbt : ctxB.config.buildTool = some "vite" := hbt
  have hBv : ctxB.viteConfigEditor = some edv2 := rfl
  have hBm : ctxB.mainEditor = some edm := hm
  have hC := generateCssFramework_unocss_vite hBpt hBfw hBbt hBv hBm
  set ctxC : ProjectContext := { ctxB with
    packageJson := { ctxB.packageJson with
      devDependencies := some ((ctxB.packageJson.devDependencies.getD []).set "unocss" "^66.3.3") }
    files := ctxB.files.set "uno.config.ts" generateUnoCssConfig
    viteConfigEditor :=
      some ((edv2.addImport "import UnoCSS from 'unocss/vite'").addVitePlugin "UnoCSS()")
    mainEditor := some (edm.addImport "import 'virtual:uno.css'") } with hCctx
  have hCss : cssFwStep ctxB = generateCssFramework ctxB := by
    unfold cssFwStep
    rw [hBfw]
    simp
  have hCpt : ctxC.config.projectType = some "react" := hpt
  obtain ⟨ctx2, hP, hPf, hPv, hPm, hPn, hPd⟩ := cssPreStep_total ctxC hCpt
  refine ⟨ctx2, ?_, ?_, ?_, ?_⟩
  · unfold reactGenerator.generate
    rw [if_neg (by simp [hpt]), hA]
    simp only [GenResult.next]
    rw [← hBctx, hCss, hC]
    simp only [GenResult.next]
    exact hP
  · rw [hPf, show ctxC.files = ctxB.files.set "uno.config.ts" generateUnoCssConfig from rfl,
      FileMap.get_set_self]
    rfl
  · rw [hPd "unocss" (by decide) (by decide)]
    simp only [ProjectContext.devDep,
      show ctxC.packageJson.devDependencies =
        some ((ctxB.packageJson.devDependencies.getD []).set "unocss" "^66.3.3") from rfl,
      Option.getD_some]
    rw [FileMap.get_set_self]
  · refine ⟨edm.addImport "import 'virtual:uno.css'", ?_, ?_⟩
    · rw [hPm]
    · exact Editor.mem_addImport_self _ _

theorem c6_witness :
    ∃ ctx2, reactGenerator.generate sampleUnoCtx = .ok ctx2 ∧
      (ctx2.files.get "uno.config.ts").isSome ∧
      ctx2.devDep "unocss" = some "^66.3.3" ∧
      ∃ e, ctx2.mainEditor = some e ∧ "import 'virtual:uno.css'" ∈ e.imports :=
  c6_react_vite_unocss sampleUnoCtx {} {} rfl rfl rfl rfl (by decide) rfl rfl

/-- `reactCoreWrites` leaves any file entry alone whose key is none of
the paths it writes (for either value of the context's extension). -/
theorem reactCoreWrites_files_frame (c : ProjectContext) (k : String)
    (hextT : c.fileExtension = ".ts" ∨ c.fileExtension = ".js")
    (hk : k ∉ (["src/app.tsx", "src/app.jsx", "src/main.tsx", "src/main.jsx",
      "src/components/counter..tsx", "src/components/counter..jsx",
      "src/vite-env.d.ts", "public/favicon.svg", "index.html", "README.md",
      ".gitignore"] : List String)) :
    (reactCoreWrites c).files.get k = c.files.get k := by
  simp only [List.mem_cons, List.not_mem_nil, or_false, not_or] at hk
  obtain ⟨h1, h2, h3, h4, h5, h6, h7, h8, h9, h10, h11⟩ := hk
  rcases hextT with he | he <;>
    by_cases hl : c.config.language = some "typescript" <;>
      simp [reactCoreWrites, he, hl, FileMap.get_set_ne,
        h1, h2, h3, h4, h5, h6, h7, h8, h9, h10, h11]

/-- C9: for every react configuration with `cssFramework 'tailwindcss'`
whose build tool is not `'vite'`, the generator still records
`tailwindcss = '^4.1.11'` in the dev-dependencies, but does not add
`@tailwindcss/vite`, does not create `src/styles/global.css`, and
leaves both editors untouched (no editor calls). -/
theorem c9_tailwind_without_vite
    (ctx : ProjectContext)
    (hpt : ctx.config.projectType = some "react")
    (hfw : ctx.config.cssFramework = some "tailwindcss")
    (hbt : ctx.config.buildTool ≠ some "vite")
    (hextT : ctx.fileExtension = ".ts" ∨ ctx.fileExtension = ".js")
    (hfreshCss : ctx.files.get "src/styles/global.css" = none)
    (hfreshDep : ctx.devDep "@tailwindcss/vite" = none) :
    ∃ ctx2, reactGenerator.generate ctx = .ok ctx2 ∧
      ctx2.devDep "tailwindcss" = some "^4.1.11" ∧
      ctx2.devDep "@tailwindcss/vite" = none ∧
      ctx2.files.get "src/styles/global.css" = none ∧
      ctx2.viteConfigEditor = ctx.viteConfigEditor ∧
      ctx2.mainEditor = ctx.mainEditor := by
  have hA := reactViteStep_not_vite hbt
  set ctxB : ProjectContext := reactCoreWrites ctx with hBctx
  have hBpt : ctxB.config.projectType = some "react" := hpt
  have hBfw : ctxB.config.cssFramework = some "tailwindcss" := hfw
  have hBbt : ctxB.config.buildTool ≠ some "vite" := hbt
  have hC := generateCssFramework_tailwind_not_vite hBpt hBfw hBbt
  set ctxC : ProjectContext := { ctxB with
    packageJson := { ctxB.packageJson with
      devDependencies :=
        some ((ctxB.packageJson.devDependencies.getD []).set "tailwindcss" "^4.1.11") } } with hCctx
  have hCss : cssFwStep ctxB = generateCssFramework ctxB := by
    unfold cssFwStep
    rw [hBfw]
    simp
  have hCpt : ctxC.config.projectType = some "react" := hpt
  obtain ⟨ctx2, hP, hPf, hPv, hPm, hPn, hPd⟩ := cssPreStep_total ctxC hCpt
  have hBfilesOther : ctxB.files.get "src/styles/global.css" = ctx.files.get "src/styles/global.css" :=
    reactCoreWrites_files_frame ctx "src/styles/global.css" hextT (by decide)
  refine ⟨ctx2, ?_, ?_, ?_, ?_, ?_, ?_⟩
  · unfold reactGenerator.generate
    rw [if_neg (by simp [hpt]), hA]
    simp only [GenResult.next]
    rw [← hBctx, hCss, hC]
    simp only [GenResult.next]
    exact hP
  · rw [hPd "tailwindcss" (by decide) (by decide)]
    simp only [ProjectContext.devDep,
      show ctxC.packageJson.devDependencies =
        some ((ctxB.packageJson.devDependencies.getD []).set "tailwindcss" "^4.1.11") from rfl,
      Option.getD_some]
    rw [FileMap.get_set_self]
  · rw [hPd "@tailwindcss/vite" (by decide) (by decide)]
    simp only [ProjectContext.devDep,
      show ctxC.packageJson.devDependencies =
        some ((ctxB.packageJson.devDependencies.getD []).set "tailwindcss" "^4.1.11") from rfl,
      Option.getD_some]
    rw [FileMap.get_set_ne _ _ (by decide)]
    exact hfreshDep
  · rw [hPf, show ctxC.files = ctxB.files from rfl, hBfilesOther]
    exact hfreshCss
  · rw [hPv]
    exact rfl
  · rw [hPm]
    exact rfl

theorem c9_witness :
    ∃ ctx2, reactGenerator.generate sampleTailwindWebpackCtx = .ok ctx2 ∧
      ctx2.devDep "tailwindcss" = some "^4.1.11" ∧
      ctx2.devDep "@tailwindcss/vite" = none ∧
      ctx2.files.get "src/styles/global.css" = none ∧
      ctx2.viteConfigEditor = sampleTailwindWebpackCtx.viteConfigEditor ∧
      ctx2.mainEditor = sampleTailwindWebpackCtx.mainEditor :=
  c9_tailwind_without_vite sampleTailwindWebpackCtx rfl rfl (by decide)
    (Or.inl rfl) rfl rfl

/-- C7: whenever `targetDir` is unspecified (`undefined` or empty), a
successful run of the React generator uses the default project name
`hana-project` as the manifest name and as the README title: the
README is exactly the rendered template for `hana-project`, whose text
begins with `# hana-project` (stated character-wise:
`"# hana-project".toList` is a prefix of the README's characters). -/
theorem c7_default_project_name
    (ctx ctx2 : ProjectContext)
    (htd : ctx.config.targetDir = none ∨ ctx.config.targetDir = some "")
    (hok : reactGenerator.generate ctx = .ok ctx2) :
    ctx2.packageJson.name = "hana-project" ∧
    ctx2.files.get "README.md" =
      some (generateReadmeTemplate "react" "hana-project" (some "A React project")) ∧
    ∃ r, ctx2.files.get "README.md" = some r ∧
      "# hana-project".toList.isPrefixOf r.toList = true := by
  obtain ⟨hpt, ctxA, ctxC, hA, hC, hP⟩ := generate_ok_split hok
  obtain ⟨hAc, hAf, hAp, hAe, hAm⟩ := reactViteStep_frame hA
  obtain ⟨hCc, hCe, hCn, hCf⟩ := cssFwStep_frame hC
  obtain ⟨hPfiles, hPv, hPm, hPn, hPd⟩ := cssPreStep_frame hP
  have htd' : ctxA.config.targetDir = none ∨ ctxA.config.targetDir = some "" := by
    rw [hAc]; exact htd
  have hjs : jsOr ctxA.config.targetDir "hana-project" = "hana-project" := by
    rcases htd' with h | h <;> simp [jsOr, h]
  have hptA : ctxA.config.projectType = some "react" := by rw [hAc]; exact hpt
  have hname : ctx2.packageJson.name = "hana-project" := by
    rw [hPn, hCn, show (reactCoreWrites ctxA).packageJson.name =
      jsOr ctxA.config.targetDir "hana-project" from rfl, hjs]
  have hreadme : ctx2.files.get "README.md" =
      some (generateReadmeTemplate "react" "hana-project" (some "A React project")) := by
    rw [hPfiles, hCf _ (by decide) (by decide)]
    simp [reactCoreWrites, FileMap.get_set_self, FileMap.get_set_ne, hptA, hjs]
  exact ⟨hname, hreadme,
    generateReadmeTemplate "react" "hana-project" (some "A React project"),
    hreadme, by decide⟩

theorem c7_witness :
    (samplePlainTsCtx.config.targetDir = none ∨ samplePlainTsCtx.config.targetDir = some "") ∧
    reactGenerator.generate samplePlainTsCtx =
      .ok (reactGenerator.generate samplePlainTsCtx).ctxOf ∧
    ((reactGenerator.generate samplePlainTsCtx).ctxOf.packageJson.name = "hana-project" ∧
     (reactGenerator.generate samplePlainTsCtx).ctxOf.files.get "README.md" =
       some (generateReadmeTemplate "react" "hana-project" (some "A React project")) ∧
     ∃ r, (reactGenerator.generate samplePlainTsCtx).ctxOf.files.get "README.md" = some r ∧
       "# hana-project".toList.isPrefixOf r.toList = true) :=
  ⟨Or.inl rfl, rfl,
   c7_default_project_name samplePlainTsCtx _ (Or.inl rfl) rfl⟩

/-- C4: on a successful run, `src/vite-env.d.ts` is present exactly for
`language = 'typescript'` (absent for `'javascript'` when not already
present before the run), and the `app` / `main` / `counter` sources
are emitted at paths built from `getFileExtension language`. -/
theorem c4_conditional_file_presence
    (ctx ctx2 : ProjectContext) (lang : String)
    (hl : lang = "typescript" ∨ lang = "javascript")
    (hlang : ctx.config.language = some lang)
    (hext : ctx.fileExtension = getFileExtension lang)
    (hfresh : ctx.files.get "src/vite-env.d.ts" = none)
    (hok : reactGenerator.generate ctx = .ok ctx2) :
    (lang = "typescript" → (ctx2.files.get "src/vite-env.d.ts").isSome) ∧
    (lang = "javascript" → ctx2.files.get "src/vite-env.d.ts" = none) ∧
    (ctx2.files.get ("src/app" ++ getFileExtension lang ++ "x")).isSome ∧
    (ctx2.files.get ("src/main" ++ getFileExtension lang ++ "x")).isSome ∧
    (ctx2.files.get ("src/components/counter." ++ getFileExtension lang ++ "x")).isSome := by
  obtain ⟨hpt, ctxA, ctxC, hA, hC, hP⟩ := generate_ok_split hok
  obtain ⟨hAc, hAf, hAp, hAe, hAm⟩ := reactViteStep_frame hA
  obtain ⟨hCc, hCe, hCn, hCf⟩ := cssFwStep_frame hC
  obtain ⟨hPfiles, hPv, hPm, hPn, hPd⟩ := cssPreStep_frame hP
  have hlangA : ctxA.config.language = some lang := by rw [hAc]; exact hlang
  have hextA : ctxA.fileExtension = getFileExtension lang := by rw [hAe]; exact hext
  have hfreshA : ctxA.files.get "src/vite-env.d.ts" = none := by rw [hAf]; exact hfresh
  rcases hl with hts | hjs
  · subst hts
    have hext2 : ctxA.fileExtension = ".ts" := by simpa [getFileExtension] using hextA
    have henv : ctx2.files.get "src/vite-env.d.ts" =
        (reactCoreWrites ctxA).files.get "src/vite-env.d.ts" := by
      rw [hPfiles, hCf _ (by decide) (by decide)]
    have henv2 : (reactCoreWrites ctxA).files.get "src/vite-env.d.ts" =
        some generateViteEnvFile := by
      simp [reactCoreWrites, hext2, hlangA, FileMap.get_set_self, FileMap.get_set_ne]
    have happ : ctx2.files.get "src/app.tsx" = (reactCoreWrites ctxA).files.get "src/app.tsx" := by
      rw [hPfiles, hCf _ (by decide) (by decide)]
    have happ2 : (reactCoreWrites ctxA).files.get "src/app.tsx" = some generateAppFile := by
      simp [reactCoreWrites, hext2, hlangA, FileMap.get_set_self, FileMap.get_set_ne]
    have hmain : ctx2.files.get "src/main.tsx" = (reactCoreWrites ctxA).files.get "src/main.tsx" := by
      rw [hPfiles, hCf _ (by decide) (by decide)]
    have hmain2 : (reactCoreWrites ctxA).files.get "src/main.tsx" =
        some (generateMainFile "src/app.tsx") := by
      simp [reactCoreWrites, hext2, hlangA, FileMap.get_set_self, FileMap.get_set_ne]
    have hcnt : ctx2.files.get "src/components/counter..tsx" =
        (reactCoreWrites ctxA).files.get "src/components/counter..tsx" := by
      rw [hPfiles, hCf _ (by decide) (by decide)]
    have hcnt2 : (reactCoreWrites ctxA).files.get "src/components/counter..tsx" =
        some generateCounterFile := by
      simp [reactCoreWrites, hext2, hlangA, FileMap.get_set_self, FileMap.get_set_ne]
    refine ⟨fun _ => ?_, fun h => absurd h (by decide), ?_, ?_, ?_⟩
    · rw [henv, henv2]; rfl
    · show (ctx2.files.get "src/app.tsx").isSome
      rw [happ, happ2]; rfl
    · show (ctx2.files.get "src/main.tsx").isSome
      rw [hmain, hmain2]; rfl
    · show (ctx2.files.get "src/components/counter..tsx").isSome
      rw [hcnt, hcnt2]; rfl
  · subst hjs
    have hext2 : ctxA.fileExtension = ".js" := by simpa [getFileExtension] using hextA
    have hlangA' : ctxA.config.language ≠ some "typescript" := by
      rw [hlangA]; decide
    have henv : ctx2.files.get "src/vite-env.d.ts" =
        (reactCoreWrites ctxA).files.get "src/vite-env.d.ts" := by
      rw [hPfiles, hCf _ (by decide) (by decide)]
    have henv2 : (reactCoreWrites ctxA).files.get "src/vite-env.d.ts" =
        ctxA.files.get "src/vite-env.d.ts" := by
      simp [reactCoreWrites, hext2, hlangA', FileMap.get_set_ne]
    have happ : ctx2.files.get "src/app.jsx" = (reactCoreWrites ctxA).files.get "src/app.jsx" := by
      rw [hPfiles, hCf _ (by decide) (by decide)]
    have happ2 : (reactCoreWrites ctxA).files.get "src/app.jsx" = some generateAppFile := by
      simp [reactCoreWrites, hext2, hlangA', FileMap.get_set_self, FileMap.get_set_ne]
    have hmain : ctx2.files.get "src/main.jsx" = (reactCoreWrites ctxA).files.get "src/main.jsx" := by
      rw [hPfiles, hCf _ (by decide) (by decide)]
    have hmain2 : (reactCoreWrites ctxA).files.get "src/main.jsx" =
        some (generateMainFile "src/app.jsx") := by
      simp [reactCoreWrites, hext2, hlangA', FileMap.get_set_self, FileMap.get_set_ne]
    have hcnt : ctx2.files.get "src/components/counter..jsx" =
        (reactCoreWrites ctxA).files.get "src/components/counter..jsx" := by
      rw [hPfiles, hCf _ (by decide) (by decide)]
    have hcnt2 : (reactCoreWrites ctxA).files.get "src/components/counter..jsx" =
        some generateCounterFile := by
      simp [reactCoreWrites, hext2, hlangA', FileMap.get_set_self, FileMap.get_set_ne]
    refine ⟨fun h => absurd h (by decide), fun _ => ?_, ?_, ?_, ?_⟩
    · rw [henv, henv2]
      exact hfreshA
    · show (ctx2.files.get "src/app.jsx").isSome
      rw [happ, happ2]; rfl
    · show (ctx2.files.get "src/main.jsx").isSome
      rw [hmain, hmain2]; rfl
    · show (ctx2.files.get "src/components/counter..jsx").isSome
      rw [hcnt, hcnt2]; rfl

theorem c4_witness :
    ((("javascript" : String) = "typescript" ∨ ("javascript" : String) = "javascript") ∧
     samplePlainJsCtx.config.language = some "javascript" ∧
     samplePlainJsCtx.fileExtension = getFileExtension "javascript" ∧
     samplePlainJsCtx.files.get "src/vite-env.d.ts" = none ∧
     reactGenerator.generate samplePlainJsCtx =
       .ok (reactGenerator.generate samplePlainJsCtx).ctxOf) ∧
    ((("javascript" : String) = "typescript" →
        ((reactGenerator.generate samplePlainJsCtx).ctxOf.files.get "src/vite-env.d.ts").isSome) ∧
     (("javascript" : String) = "javascript" →
        (reactGenerator.generate samplePlainJsCtx).ctxOf.files.get "src/vite-env.d.ts" = none) ∧
     ((reactGenerator.generate samplePlainJsCtx).ctxOf.files.get
        ("src/app" ++ getFileExtension "javascript" ++ "x")).isSome ∧
     ((reactGenerator.generate samplePlainJsCtx).ctxOf.files.get
        ("src/main" ++ getFileExtension "javascript" ++ "x")).isSome ∧
     ((reactGenerator.generate samplePlainJsCtx).ctxOf.files.get
        ("src/components/counter." ++ getFileExtension "javascript" ++ "x")).isSome) :=
  ⟨⟨Or.inr rfl, rfl, by decide, rfl, rfl⟩,
   c4_conditional_file_presence samplePlainJsCtx _ "javascript" (Or.inr rfl) rfl
     (by decide) rfl rfl⟩

/-! ### `renderTemplate` facts (C10) -/

theorem matchVar_cons_ne {key l : List Char} {c : Char} (hc : c ≠ '{') :
    matchVar key (c :: l) = none := by
  rw [matchVar.eq_def]
  split
  · rename_i rest heq
    injection heq with h1 _
    exact absurd h1 hc
  · rfl

theorem dropWhile_append_of_all {p : Char → Bool} {sp y : List Char}
    (h : ∀ c ∈ sp, p c = true) :
    (sp ++ y).dropWhile p = y.dropWhile p := by
  induction sp with
  | nil => rfl
  | cons a sp ih =>
    rw [List.cons_append, List.dropWhile_cons, if_pos (h a (by simp))]
    exact ih fun c hc => h c (by simp [hc])

theorem dropWhile_cons_of_neg {p : Char → Bool} {a : Char} {y : List Char}
    (h : p a = false) :
    (a :: y).dropWhile p = a :: y := by
  rw [List.dropWhile_cons, if_neg (by simp [h])]

/-- A site `\x7b\x7b sp1 key sp2 \x7d\x7d` at the head of the text
matches, consuming exactly the site. -/
theorem matchVar_at_site {key sp1 sp2 tail : List Char}
    (hks : ∀ c ∈ key, isJsSpace c = false ∧ c ≠ '{' ∧ c ≠ '}')
    (hk : key ≠ [])
    (hsp1 : ∀ c ∈ sp1, isJsSpace c = true)
    (hsp2 : ∀ c ∈ sp2, isJsSpace c = true) :
    matchVar key ('{' :: '{' :: (sp1 ++ (key ++ (sp2 ++ '}' :: '}' :: tail)))) = some tail := by
  obtain ⟨k0, ktl, rfl⟩ : ∃ k0 ktl, key = k0 :: ktl := by
    cases key with
    | nil => exact absurd rfl hk
    | cons a b => exact ⟨a, b, rfl⟩
  have hdw1 : (sp1 ++ ((k0 :: ktl) ++ (sp2 ++ '}' :: '}' :: tail))).dropWhile isJsSpace =
      (k0 :: ktl) ++ (sp2 ++ '}' :: '}' :: tail) := by
    rw [dropWhile_append_of_all hsp1, List.cons_append]
    exact dropWhile_cons_of_neg (hks k0 (by simp)).1
  have hdw2 : ((sp2 ++ '}' :: '}' :: tail)).dropWhile isJsSpace = '}' :: '}' :: tail := by
    rw [dropWhile_append_of_all hsp2]
    exact dropWhile_cons_of_neg (by decide)
  show matchVar (k0 :: ktl) _ = some tail
  rw [matchVar.eq_def]
  simp only [hdw1]
  rw [if_pos ?hpre]
  case hpre =>
    exact List.isPrefixOf_iff_prefix.mpr (List.prefix_append _ _)
  rw [show ((k0 :: ktl) ++ (sp2 ++ '}' :: '}' :: tail)).drop (k0 :: ktl).length =
      sp2 ++ '}' :: '}' :: tail from List.drop_left _ _]
  rw [hdw2]
  rfl

theorem replaceVarAll_nil (key value : List Char) :
    replaceVarAll key value [] = [] := by
  rw [replaceVarAll.eq_def]

theorem replaceVarAll_cons_none {key value : List Char} {c : Char} {rest : List Char}
    (h : matchVar key (c :: rest) = none) :
    replaceVarAll key value (c :: rest) = c :: replaceVarAll key value rest := by
  rw [replaceVarAll.eq_def]
  dsimp only
  split
  · rename_i rest2 heq
    rw [h] at heq
    exact absurd heq (by simp)
  · rfl

theorem replaceVarAll_cons_some {key value : List Char} {c : Char} {rest rest2 : List Char}
    (h : matchVar key (c :: rest) = some rest2) :
    replaceVarAll key value (c :: rest) = value ++ replaceVarAll key value rest2 := by
  rw [replaceVarAll.eq_def]
  dsimp only
  split
  · rename_i rest3 heq
    rw [h] at heq
    injection heq with heq
    rw [heq]
  · rename_i heq
    rw [h] at heq
    exact absurd heq (by simp)

/-- Text with no opening brace is copied verbatim. -/
theorem replaceVarAll_no_brace {key value l : List Char}
    (hl : ∀ c ∈ l, c ≠ '{') :
    replaceVarAll key value l = l := by
  induction l with
  | nil => exact replaceVarAll_nil key value
  | cons c rest ih =>
    rw [replaceVarAll_cons_none (matchVar_cons_ne (hl c (by simp)))]
    rw [ih fun c hc => hl c (by simp [hc])]

/-- A brace-free segment in front of the text is copied verbatim. -/
theorem replaceVarAll_append_seg {key value seg t : List Char}
    (hseg : ∀ c ∈ seg, c ≠ '{') :
    replaceVarAll key value (seg ++ t) = seg ++ replaceVarAll key value t := by
  induction seg with
  | nil => rfl
  | cons c rest ih =>
    rw [List.cons_append,
      replaceVarAll_cons_none (matchVar_cons_ne (hseg c (by simp))),
      ih fun c hc => hseg c (by simp [hc]), List.cons_append]

/-- A template built from brace-free segments interleaved with
`\x7b\x7b sp key sp \x7d\x7d` sites (each piece is a segment, the
whitespace after the opening braces, and the whitespace before the
closing braces). -/
def buildTemplate (key : List Char) :
    List (List Char × List Char × List Char) → List Char → List Char
  | [], last => last
  | (seg, sp1, sp2) :: rest, last =>
    seg ++ '{' :: '{' :: (sp1 ++ (key ++ (sp2 ++ '}' :: '}' :: buildTemplate key rest last)))

/-- The same interleaving with every site replaced by the value. -/
def buildOutput (value : List Char) :
    List (List Char × List Char × List Char) → List Char → List Char
  | [], last => last
  | (seg, _, _) :: rest, last => seg ++ (value ++ buildOutput value rest last)

theorem replaceVarAll_buildTemplate
    {key value : List Char}
    (hks : ∀ c ∈ key, isJsSpace c = false ∧ c ≠ '{' ∧ c ≠ '}')
    (hk : key ≠ [])
    (pieces : List (List Char × List Char × List Char)) (last : List Char)
    (hp : ∀ x ∈ pieces, (∀ c ∈ x.1, c ≠ '{') ∧
      (∀ c ∈ x.2.1, isJsSpace c = true) ∧ (∀ c ∈ x.2.2, isJsSpace c = true))
    (hlast : ∀ c ∈ last, c ≠ '{') :
    replaceVarAll key value (buildTemplate key pieces last) =
      buildOutput value pieces last := by
  induction pieces with
  | nil => exact replaceVarAll_no_brace hlast
  | cons x rest ih =>
    obtain ⟨seg, sp1, sp2⟩ := x
    obtain ⟨hseg, hsp1, hsp2⟩ := hp _ (List.mem_cons_self _ _)
    rw [buildTemplate, replaceVarAll_append_seg hseg,
      replaceVarAll_cons_some (matchVar_at_site hks hk hsp1 hsp2),
      ih fun x hx => hp x (List.mem_cons_of_mem _ hx), buildOutput]

/-- C10: `renderTemplate` is the identity under an empty variables map,
and a single key's value replaces every `\x7b\x7bkey\x7d\x7d`
occurrence — whitespace allowed inside the braces, all occurrences,
not just the first.  The key is required to be a plain identifier-like
string (no whitespace and no brace characters), which is also what
makes the source's string-built regular expression match it
literally. -/
theorem c10_renderTemplate (t k v : String)
    (pieces : List (List Char × List Char × List Char)) (last : List Char)
    (hks : ∀ c ∈ k.toList, isJsSpace c = false ∧ c ≠ '{' ∧ c ≠ '}')
    (hk : k.toList ≠ [])
    (hp : ∀ x ∈ pieces, (∀ c ∈ x.1, c ≠ '{') ∧
      (∀ c ∈ x.2.1, isJsSpace c = true) ∧ (∀ c ∈ x.2.2, isJsSpace c = true))
    (hlast : ∀ c ∈ last, c ≠ '{') :
    renderTemplate t [] = t ∧
    renderTemplate (String.mk (buildTemplate k.toList pieces last)) [(k, v)] =
      String.mk (buildOutput v.toList pieces last) := by
  refine ⟨rfl, ?_⟩
  show String.mk (replaceVarAll k.toList v.toList (buildTemplate k.toList pieces last)) = _
  rw [replaceVarAll_buildTemplate hks hk pieces last hp hlast]

theorem c10_witness :
    ((∀ c ∈ "name".toList, isJsSpace c = false ∧ c ≠ '{' ∧ c ≠ '}') ∧
     "name".toList ≠ [] ∧
     (∀ x ∈ ([("Dear ".toList, [' '], [' ', ' ']), (", hello ".toList, [], [])] :
        List (List Char × List Char × List Char)),
       (∀ c ∈ x.1, c ≠ '{') ∧
       (∀ c ∈ x.2.1, isJsSpace c = true) ∧ (∀ c ∈ x.2.2, isJsSpace c = true)) ∧
     (∀ c ∈ "!".toList, c ≠ '{')) ∧
    (renderTemplate "plain" [] = "plain" ∧
     renderTemplate (String.mk (buildTemplate "name".toList
         [("Dear ".toList, [' '], [' ', ' ']), (", hello ".toList, [], [])] "!".toList))
       [("name", "Ada")] =
       String.mk (buildOutput "Ada".toList
         [("Dear ".toList, [' '], [' ', ' ']), (", hello ".toList, [], [])] "!".toList)) :=
  ⟨⟨by decide, by decide, by decide, by decide⟩,
   c10_renderTemplate "plain" "name" "Ada"
     [("Dear ".toList, [' '], [' ', ' ']), (", hello ".toList, [], [])] "!".toList
     (by decide) (by decide) (by decide) (by decide)⟩

end CreateHana
